import Mathlib

/-!
Verification of the package-build-adapter behaviour of the easybuild-easyblocks
excerpt (blender.py, mvapich2.py, petsc.py) against its natural-language
specification.  The Python modules are shallowly embedded as pure Lean
functions: external collaborators (environment lookup, installed-software
lookup, filesystem tests, the output of external commands) are passed in as
oracle functions, and the mutable easyconfig state is threaded explicitly.
-/

namespace EB

/-! ### Generic string machinery shared by the embeddings -/

/-- Decidable "pattern list occurs as a contiguous infix of the character list"
    (the semantics of Python's `in` on strings and of `re.search` for a pattern
    with no metacharacters). -/
def containsL (p : List Char) : List Char → Bool
  | [] => p.isEmpty
  | c :: cs => p.isPrefixOf (c :: cs) || containsL p cs

/-- Python `pat in s` on strings. -/
def containsStr (s pat : String) : Bool := containsL pat.data s.data

/-- Number of character positions of `s` at which `pat` starts (used to detect
    duplicated flags). -/
def countOccurL (p : List Char) : List Char → Nat
  | [] => 0
  | c :: cs => (if p.isPrefixOf (c :: cs) then 1 else 0) + countOccurL p cs

/-- Number of occurrences of `pat` in `s`. -/
def countOccur (pat s : String) : Nat := countOccurL pat.data s.data

/-- Python `sep.join`, specialised to a single blank (`' '.join(...)`). -/
def joinSpace : List String → String
  | [] => ""
  | [s] => s
  | s :: rest => s ++ " " ++ joinSpace rest

/-- Python `','.join(...)`. -/
def joinComma : List String → String
  | [] => ""
  | [s] => s
  | s :: rest => s ++ "," ++ joinComma rest

/-- Modelled from the spec: the host framework's `cfg.update(key, value)`
    (easybuild-framework, an external collaborator not in this repository)
    appends the new text to the string-valued option, blank-separated
    ("flags appended to a `configopts`/`buildopts` string-valued option"). -/
def cfgUpdate (s t : String) : String := s ++ " " ++ t

/-- `os.path.join` for the path shapes used by these modules (second component
    relative and non-empty). -/
def pathJoin (a b : String) : String := if a.data.isEmpty then b else a ++ "/" ++ b

/-- Python truthiness of an optional string (`None` and `''` are falsy). -/
def truthy : Option String → Bool
  | none => false
  | some s => !s.data.isEmpty

/-- The string an optional value contributes once its truthiness has been
    established. -/
def optVal (o : Option String) : String := o.getD ""

/-- Python `'%s' % x` where `x` is an optional string (`None` prints as
    `"None"`); models formatting the result of `os.getenv`. -/
def pyStr : Option String → String
  | none => "None"
  | some s => s

/-- Python `'%s' % x` where `x` is an optional integer easyconfig value. -/
def pyStrN : Option Nat → String
  | none => "None"
  | some n => toString n

/-- Python `'%d' % b` on a boolean. -/
def b2i (b : Bool) : Nat := if b then 1 else 0

/-- Lower-casing of an ASCII character (Python `str.lower` on the names used
    here). -/
def lowerChar (c : Char) : Char :=
  if 'A' ≤ c ∧ c ≤ 'Z' then Char.ofNat (c.toNat + 32) else c

/-- Upper-casing of an ASCII character (Python `str.upper`). -/
def upperChar (c : Char) : Char :=
  if 'a' ≤ c ∧ c ≤ 'z' then Char.ofNat (c.toNat - 32) else c

/-- Python `s.lower()` for the ASCII names used by these modules. -/
def strLower (s : String) : String := ⟨s.data.map lowerChar⟩

/-- Python `s.upper()` for the ASCII names used by these modules. -/
def strUpper (s : String) : String := ⟨s.data.map upperChar⟩

/-- Split a character list at `'.'` separators. -/
def splitDots : List Char → List (List Char)
  | [] => [[]]
  | c :: cs =>
    if c = '.' then [] :: splitDots cs
    else match splitDots cs with
      | [] => [[c]]
      | g :: gs => (c :: g) :: gs

/-- Decimal value of a digit chunk. -/
def chunkToNat (cs : List Char) : Nat := cs.foldl (fun n c => n * 10 + (c.toNat - 48)) 0

/-- `distutils.version.LooseVersion` parsing, restricted to the
    numeric dotted version strings these modules compare ("2.0", "3", "3.4",
    "3.5", "3.5.1", ...): the list of numeric components. -/
def parseVer (s : String) : List Nat := (splitDots s.data).map chunkToNat

/-- Python list `<` on the parsed components (lexicographic, a strict prefix is
    smaller). -/
def verListLT : List Nat → List Nat → Bool
  | [], [] => false
  | [], _ :: _ => true
  | _ :: _, [] => false
  | a :: as, b :: bs => if a < b then true else if b < a then false else verListLT as bs

/-- `LooseVersion(a) >= LooseVersion(b)` for numeric dotted versions. -/
def looseVersionGE (a b : String) : Bool := ! verListLT (parseVer a) (parseVer b)

/-! ### blender.py -/

/-- The diagnostic payload of the `EasyBuildError` raised by
    `find_glob_pattern`: the format arguments `(glob_pattern, len(res), res)`. -/
structure GlobError where
  pattern : String
  count : Nat
  matchList : List String
deriving DecidableEq

/-- `find_glob_pattern` (blender.py, lines 39-43): `glob.glob` is the oracle
    `globfn`; exactly one match is returned, any other match count raises an
    `EasyBuildError` carrying the pattern, the count and the match list. -/
def find_glob_pattern (globfn : String → List String) (glob_pattern : String) :
    Except GlobError String :=
  let res := globfn glob_pattern
  if h : res.length ≠ 1 then Except.error ⟨glob_pattern, res.length, res⟩
  else Except.ok (res.get ⟨0, by omega⟩)

/-- `default_config_opts` of `EB_Blender.configure_step`, in source order. -/
def blenderDefaultConfigOpts : List (String × String) :=
  [("WITH_INSTALL_PORTABLE", "OFF"),
   ("WITH_BUILDINFO", "OFF"),
   ("WITH_CPU_SSE", "OFF"),
   ("CMAKE_C_FLAGS_RELEASE", "-DNDEBUG"),
   ("CMAKE_CXX_FLAGS_RELEASE", "-DNDEBUG"),
   ("WITH_GAMEENGINE", "OFF"),
   ("WITH_SYSTEM_GLEW", "OFF")]

/-- One iteration of the defaults loop of `EB_Blender.configure_step`
    (lines 64-67): build `opt = '-D%s=' % key`, and append `opt + value` only
    when `opt` does not already occur in `configopts`. -/
def blenderDefaultStep (configopts : String) (kv : String × String) : String :=
  let opt := "-D" ++ kv.1 ++ "="
  if containsStr configopts opt then configopts else cfgUpdate configopts (opt ++ kv.2)

/-- The whole defaults loop of `EB_Blender.configure_step`. -/
def blenderApplyDefaults (configopts : String) : String :=
  blenderDefaultConfigOpts.foldl blenderDefaultStep configopts

/-- Expected paths handed to the framework sanity check. -/
structure SanityPaths where
  files : List String
  dirs : List String
deriving DecidableEq

/-- `custom_paths` of `EB_Blender.sanity_check_step` (lines 103-111). -/
def blenderSanityPaths : SanityPaths := { files := ["bin/blender"], dirs := [] }

/-! ### mvapich2.py -/

/-- The easyconfig options read by `EB_MVAPICH2.configure_step`, with the
    defaults declared in `extra_options`. -/
structure MvapichCfg where
  version : String
  withchkpt : Bool := false
  withmpe : Bool := false
  withhwloc : Bool := false
  withlimic2 : Bool := false
  debug : Bool := false
  rdma_type : String := "gen2"
  blcr_path : Option String := none
  blcr_inc_path : Option String := none
  blcr_lib_path : Option String := none
deriving DecidableEq

/-- `add_configopts` as assembled by `EB_MVAPICH2.configure_step`
    (lines 74-113), in source order.  No option is checked against the
    pre-existing `configopts` before being appended. -/
def mvapich2AddConfigopts (cfg : MvapichCfg) : List String :=
  ["--with-rdma=" ++ cfg.rdma_type]
  ++ ["--with-thread-package=pthreads"]
  ++ (if cfg.debug then ["--enable-fast=none"] else ["--enable-fast"])
  ++ ["--enable-shared", "--enable-sharedlibs=gcc"]
  ++ ["--enable-f77", "--enable-fc", "--enable-cxx"]
  ++ (if cfg.withmpe then ["--enable-mpe"] else [])
  ++ (if cfg.withlimic2 then ["--enable-limic2"] else [])
  ++ (if cfg.withchkpt then ["--enable-checkpointing", "--with-hydra-ckpointlib=blcr"] else [])
  ++ (if cfg.withhwloc then ["--with-hwloc"] else [])
  ++ (if truthy cfg.blcr_path then ["--with-blcr=" ++ optVal cfg.blcr_path] else [])
  ++ (if truthy cfg.blcr_inc_path then ["--with-blcr-include=" ++ optVal cfg.blcr_inc_path] else [])
  ++ (if truthy cfg.blcr_lib_path then ["--with-blcr-libpath=" ++ optVal cfg.blcr_lib_path] else [])

/-- Effect of `EB_MVAPICH2.configure_step` (line 115) on the `configopts`
    option: `self.cfg.update('configopts', ' '.join(add_configopts))`. -/
def mvapich2ConfigureStep (cfg : MvapichCfg) (configopts : String) : String :=
  cfgUpdate configopts (joinSpace (mvapich2AddConfigopts cfg))

/-- `custom_paths` of `EB_MVAPICH2.sanity_check_step` (lines 121-128). -/
def mvapich2SanityPaths : SanityPaths := { files := ["bin/mpiexec.mpirun_rsh"], dirs := [] }

/-! ### petsc.py -/

/-- The easyconfig options read by `EB_PETSc` (defaults from
    `extra_options`), together with the framework-provided identity fields
    (`self.name`, `self.version`) and the dependency declarations. -/
structure PetscCfg where
  name : String := "PETSc"
  version : String
  sourceinstall : Bool := false
  shared_libs : Bool := false
  with_papi : Bool := false
  papi_inc : String := "/usr/include"
  papi_lib : String := "/usr/lib64/libpapi.so"
  start_dir : String := ""
  preconfigopts : String := ""
  installdir : String := ""
  builddeps : List String := []
  deps : List String := []
deriving DecidableEq

/-- External collaborators of `EB_PETSc.configure_step`, passed as oracles:
    `os.getenv`, `get_software_root`, `os.path.isfile`, the toolchain queries,
    the captured output and exit code of the external configure command
    (`run_cmd` / the generic configure step), and the result of the
    `re.search("^\s*PETSC_ARCH:\s*(\S+)$", out, re.M)` scan on that output. -/
structure PetscExt where
  getenv : String → Option String
  swroot : String → Option String
  isfile : String → Bool
  compFamilyGCC : Bool
  usempi : Bool
  tcDebug : Bool
  tcPic : Bool
  configureOut : String
  configureExit : Nat
  petscArchOf : String → Option String

/-- The mutable per-build state threaded through the `EB_PETSc` lifecycle:
    the string-valued `configopts`/`buildopts` options, the `parallel`
    option, the instance attributes `petsc_arch`/`petsc_subdir`, the
    diagnostics recorded by `self.log.error` / `self.log.info` (the logger is
    framework-side; `error` records a fatal diagnostic, `info` a note), the
    environment variables exported via `env.setvar`, and the external
    commands handed to `run_cmd`. -/
structure PetscState where
  configopts : String := ""
  buildopts : String := ""
  parallel : Option Nat := none
  petsc_arch : String := ""
  petsc_subdir : String := ""
  errors : List String := []
  infos : List String := []
  envSets : List (String × String) := []
  runCmds : List String := []
deriving DecidableEq

/-- Double-quoting used by the compiler-related configure options. -/
def quo (s : String) : String := "\"" ++ s ++ "\""

/-- Compiler selection options (petsc.py, lines 84-86). -/
def petscCompilerOpts (getenv : String → Option String) : List String :=
  ["--with-cc=" ++ quo (pyStr (getenv "CC")),
   "--with-cxx=" ++ quo (pyStr (getenv "CXX")) ++ " --with-c++-support",
   "--with-fc=" ++ quo (pyStr (getenv "F90"))]

/-- Compiler flag options (petsc.py, lines 89-96): flag names switch at the
    3.5 version threshold, inclusively. -/
def petscCompilerFlagOpts (version : String) (getenv : String → Option String) : List String :=
  if looseVersionGE version "3.5" then
    ["--CFLAGS=" ++ quo (pyStr (getenv "CFLAGS")),
     "--CXXFLAGS=" ++ quo (pyStr (getenv "CXXFLAGS")),
     "--FFLAGS=" ++ quo (pyStr (getenv "F90FLAGS"))]
  else
    ["--with-cflags=" ++ quo (pyStr (getenv "CFLAGS")),
     "--with-cxxflags=" ++ quo (pyStr (getenv "CXXFLAGS")),
     "--with-fcflags=" ++ quo (pyStr (getenv "F90FLAGS"))]

/-- Build options (petsc.py, lines 106-110). -/
def petscBuildOpts (parallel : Option Nat) (shared_libs tcDebug tcPic : Bool) : List String :=
  ["--with-build-step-np=" ++ pyStrN parallel,
   "--with-shared-libraries=" ++ toString (b2i shared_libs),
   "--with-debugging=" ++ toString (b2i tcDebug),
   "--with-pic=" ++ toString (b2i tcPic),
   "--with-x=0 --with-windows-graphics=0"]

/-- The `self.log.error` message of the failed PAPI path check. -/
def papiErrMsg (papi_inc_file papi_lib : String) : String :=
  "PAPI header (" ++ papi_inc_file ++ ") and/or lib (" ++ papi_lib ++
  ") not found, can not enable PAPI support?"

/-- PAPI support block (petsc.py, lines 113-124).  First component: the
    configure options appended; second component: the fatal diagnostics
    recorded via `self.log.error`. -/
def petscPapiOpts (cfg : PetscCfg) (isfile : String → Bool) : List String × List String :=
  if cfg.with_papi then
    let papi_inc := cfg.papi_inc
    let papi_inc_file := pathJoin papi_inc "papi.h"
    let papi_lib := cfg.papi_lib
    if isfile papi_inc_file && isfile papi_lib then
      (["--with-papi=1",
        "--with-papi-include=" ++ papi_inc,
        "--with-papi-lib=" ++ papi_lib], [])
    else
      ([], [papiErrMsg papi_inc_file papi_lib])
  else ([], [])

/-- Python extensions block (petsc.py, lines 127-130). -/
def petscPythonOpts (pythonRoot : Option String) (shared_libs : Bool) : List String :=
  if truthy pythonRoot then
    ["--with-numpy=1"] ++ (if shared_libs then ["--with-mpi4py=1"] else [])
  else []

/-- One environment-triple dependency (the body shared by the FFTW/ScaLAPACK
    block and the BLACS/FFTW/ScaLAPACK loop, petsc.py lines 134-166): the
    `<NAME>_INC_DIR` / `<NAME>_LIB_DIR` / `<NAME>_STATIC_LIBS` variables must
    all be truthy for the enable/include/lib options to be appended; otherwise
    an informational message is logged and the dependency is skipped.  First
    component: configure options; second: `self.log.info` messages. -/
def petscEnvDepOpts (getenv : String → Option String) (envName withArg label : String) :
    List String × List String :=
  let inc := getenv (envName ++ "_INC_DIR")
  let libdir := getenv (envName ++ "_LIB_DIR")
  let libs := getenv (envName ++ "_STATIC_LIBS")
  if truthy inc && truthy libdir && truthy libs then
    ([withArg ++ "=1",
      withArg ++ "-include=" ++ optVal inc,
      withArg ++ "-lib=[" ++ optVal libdir ++ "/" ++ optVal libs ++ "]"], [])
  else
    ([], ["Missing inc/lib info, so not enabling " ++ label ++ " support."])

/-- BLACS/FFTW/ScaLAPACK handling (petsc.py, lines 133-166): for version
    ≥ 3.5 only FFTW and ScaLAPACK are wired (BLACS comes with ScaLAPACK);
    below 3.5 the loop covers BLACS, FFTW and ScaLAPACK with
    `'%s_INC_DIR' % dep.upper()` and `'--with-%s' % dep.lower()`. -/
def petscFftwScalapackOpts (version : String) (getenv : String → Option String) :
    List String × List String :=
  if looseVersionGE version "3.5" then
    let f := petscEnvDepOpts getenv "FFTW" "--with-fftw" "FFTW"
    let s := petscEnvDepOpts getenv "SCALAPACK" "--with-scalapack" "ScaLAPACK"
    (f.1 ++ s.1, f.2 ++ s.2)
  else
    (["BLACS", "FFTW", "ScaLAPACK"].foldl
      (fun acc dep =>
        let r := petscEnvDepOpts getenv (strUpper dep) ("--with-" ++ strLower dep) dep
        (acc.1 ++ r.1, acc.2 ++ r.2))
      ([], []))

/-- The `self.log.error` message of the missing BLAS/LAPACK environment. -/
def blasLapackErrMsg : String := "One or more environment variables for BLAS/LAPACK not defined?"

/-- BLAS/LAPACK block (petsc.py, lines 169-174).  First component: configure
    options; second: fatal diagnostics. -/
def petscBlasLapackOpts (getenv : String → Option String) : List String × List String :=
  let bl_libdir := getenv "BLAS_LAPACK_LIB_DIR"
  let bl_libs := getenv "BLAS_LAPACK_STATIC_LIBS"
  if truthy bl_libdir && truthy bl_libs then
    (["--with-blas-lapack-lib=[" ++ optVal bl_libdir ++ "/" ++ optVal bl_libs ++ "]"], [])
  else
    ([], [blasLapackErrMsg])

/-- `depfilter` (petsc.py, lines 179-180): build dependencies plus the
    dependencies handled separately. -/
def petscDepFilter (builddeps : List String) : List String :=
  builddeps ++ ["BLACS", "BLAS", "FFTW", "LAPACK", "numpy", "CMake",
                "mpi4py", "papi", "ScaLAPACK", "SuiteSparse"]

/-- Flag-name selection for an additional dependency (petsc.py, lines
    188-191): `--with-ptscotch` replaces `--with-scotch` from version 3.5
    (inclusive) on; every other dependency keeps `--with-<name lowercased>`. -/
def petscWithdep (version dep : String) : String :=
  if looseVersionGE version "3.5" && dep == "SCOTCH" then "--with-pt" ++ strLower dep
  else "--with-" ++ strLower dep

/-- Loop body of the additional-dependency loop (petsc.py, lines 186-192):
    an absent software root emits nothing; a present one emits the single
    update `'%s=1 %s-dir=%s' % (withdep, withdep, deproot)`. -/
def petscDepOpt (version : String) (swroot : String → Option String) (dep : String) :
    Option String :=
  if truthy (swroot dep) then
    some (petscWithdep version dep ++ "=1 " ++ petscWithdep version dep ++ "-dir="
          ++ optVal (swroot dep))
  else none

/-- Additional-dependency loop (petsc.py, lines 179-192): dependencies not in
    `depfilter`, each contributing via `petscDepOpt`. -/
def petscDepsOpts (version : String) (builddeps deps : List String)
    (swroot : String → Option String) : List String :=
  (deps.filter (fun d => !((petscDepFilter builddeps).contains d))).filterMap
    (petscDepOpt version swroot)

/-- SuiteSparse block (petsc.py, lines 195-227). -/
def petscSuiteSparseOpts (version : String) (swroot : String → Option String) : List String :=
  let suitesparse := swroot "SuiteSparse"
  if truthy suitesparse then
    let root := optVal suitesparse
    if looseVersionGE version "3.5" then
      let withdep := "--with-suitesparse"
      let ss_libs := ["UMFPACK", "KLU", "CHOLMOD", "BTF", "CCOLAMD", "COLAMD", "CAMD", "AMD"]
      let suitesparse_libs :=
        (ss_libs.map (fun l => pathJoin (pathJoin (pathJoin root l) "Lib") ("lib" ++ strLower l ++ ".a")))
        ++ [pathJoin (pathJoin root "SuiteSparse_config") "libsuitesparseconfig.a"]
      let suitesparse_inc :=
        (ss_libs.map (fun l => pathJoin (pathJoin root l) "Include"))
        ++ [pathJoin root "SuiteSparse_config"]
      [joinSpace ([withdep ++ "=1",
                   withdep ++ "-include=[" ++ joinComma suitesparse_inc ++ "]",
                   withdep ++ "-lib=[" ++ joinComma suitesparse_libs ++ "]"])]
    else
      let withdep := "--with-umfpack"
      let umfpack_libs :=
        ["UMFPACK", "CHOLMOD", "COLAMD", "AMD"].map
          (fun l => pathJoin (pathJoin (pathJoin root l) "Lib") ("lib" ++ strLower l ++ ".a"))
      [joinSpace ([withdep ++ "=1",
                   withdep ++ "-include=" ++ pathJoin (pathJoin root "UMFPACK") "Include",
                   withdep ++ "-lib=[" ++ joinComma umfpack_libs ++ "]"])]
  else []

/-- The `self.log.error` message of the configure-output scan. -/
def configureScanErrMsg : String := "Error(s) detected in configure output!"

/-- The `self.log.error` message of the failed `PETSC_ARCH` detection. -/
def petscArchErrMsg : String := "Failed to determine PETSC_ARCH setting."

/-- Modelled from the spec: the command the generic configure step
    (`ConfigureMake.configure_step`, an easyblock of this repository that is
    not under src/) hands to the command runner — "a single composed
    command-line string (flags space-joined) passed to the generic command
    runner", prefix options, `./configure`, `--prefix=<installdir>` and the
    assembled `configopts`. -/
def genericConfigureCmd (preconfigopts installdir configopts : String) : String :=
  preconfigopts ++ " ./configure --prefix=" ++ installdir ++ " " ++ configopts

/-- The configure options appended by the version ≥ 3 branch of
    `EB_PETSc.configure_step`, in source order (petsc.py, lines 84-227). -/
def petscNewFlags (cfg : PetscCfg) (ext : PetscExt) (parallel : Option Nat) : List String :=
  petscCompilerOpts ext.getenv
  ++ petscCompilerFlagOpts cfg.version ext.getenv
  ++ (if ext.compFamilyGCC then [] else ["--with-gnu-compilers=0"])
  ++ (if ext.usempi then ["--with-mpi=1"] else [])
  ++ petscBuildOpts parallel cfg.shared_libs ext.tcDebug ext.tcPic
  ++ (petscPapiOpts cfg ext.isfile).1
  ++ petscPythonOpts (ext.swroot "Python") cfg.shared_libs
  ++ (petscFftwScalapackOpts cfg.version ext.getenv).1
  ++ (petscBlasLapackOpts ext.getenv).1
  ++ petscDepsOpts cfg.version cfg.builddeps cfg.deps ext.swroot
  ++ petscSuiteSparseOpts cfg.version ext.swroot

/-- `EB_PETSc.configure_step`, version ≥ 3 branch (petsc.py, lines 81-255):
    assembles the configure options in source order, exports `PETSC_DIR`,
    extends `buildopts`, runs the external configure (its captured output is
    the oracle `ext.configureOut`), scans that output for `"ERROR"`, extracts
    `PETSC_ARCH` for source installations, and records `petsc_subdir`. -/
def petscConfigureStepNew (cfg : PetscCfg) (ext : PetscExt) (st : PetscState) : PetscState :=
  let papi := petscPapiOpts cfg ext.isfile
  let fsc := petscFftwScalapackOpts cfg.version ext.getenv
  let bl := petscBlasLapackOpts ext.getenv
  let co := (petscNewFlags cfg ext st.parallel).foldl cfgUpdate st.configopts
  let bo := cfgUpdate st.buildopts ("PETSC_DIR=" ++ cfg.start_dir)
  let cmd := if cfg.sourceinstall then cfg.preconfigopts ++ " ./configure " ++ co
             else genericConfigureCmd cfg.preconfigopts cfg.installdir co
  let out := ext.configureOut
  let scanErrs := if containsStr out "ERROR" then [configureScanErrMsg] else []
  let arch := if cfg.sourceinstall then
                match ext.petscArchOf out with
                | some a => a
                | none => st.petsc_arch
              else st.petsc_arch
  let archBo := if cfg.sourceinstall then
                  match ext.petscArchOf out with
                  | some a => ["PETSC_ARCH=" ++ a]
                  | none => []
                else []
  let archErrs := if cfg.sourceinstall then
                    match ext.petscArchOf out with
                    | some _ => []
                    | none => [petscArchErrMsg]
                  else []
  { st with
    configopts := co,
    buildopts := archBo.foldl cfgUpdate bo,
    petsc_arch := arch,
    petsc_subdir := strLower cfg.name ++ "-" ++ cfg.version,
    errors := st.errors ++ papi.2 ++ bl.2 ++ scanErrs ++ archErrs,
    infos := st.infos ++ fsc.2,
    envSets := st.envSets ++ [("PETSC_DIR", cfg.start_dir)],
    runCmds := st.runCmds ++ [cmd] }

/-- `EB_PETSc.configure_step`, version < 3 branch (petsc.py, lines 257-270). -/
def petscConfigureStepOld (cfg : PetscCfg) (ext : PetscExt) (st : PetscState) : PetscState :=
  let co := cfgUpdate st.configopts ("--prefix=" ++ cfg.installdir)
  let co := cfgUpdate co "--with-shared=1"
  let co := (["SCOTCH"].filterMap
    (fun dep => if truthy (ext.swroot dep) then
                  some ("--with-" ++ strLower dep ++ "=1 --with-" ++ strLower dep ++ "-dir="
                        ++ optVal (ext.swroot dep))
                else none)).foldl cfgUpdate co
  { st with
    configopts := co,
    runCmds := st.runCmds ++ ["./config/configure.py " ++ co] }

/-- `EB_PETSc.configure_step` (petsc.py, lines 74-273): version branch, then
    the trailing threshold check that disables parallel make for PETSc ≥ 3.5
    (`self.cfg['parallel'] = None`). -/
def petscConfigureStep (cfg : PetscCfg) (ext : PetscExt) (st : PetscState) : PetscState :=
  let st' := if looseVersionGE cfg.version "3" then petscConfigureStepNew cfg ext st
             else petscConfigureStepOld cfg ext st
  if looseVersionGE cfg.version "3.5" then { st' with parallel := none } else st'

/-- `EB_PETSc.install_step` (petsc.py, lines 277-294), as an effect on the
    threaded state.  For version ≥ 3 a non-source install delegates to the
    generic `make install` (modelled from the spec: the generic install phase
    runs the external build tool and touches no easyconfig option); for old
    versions symbolic links are created, and the oracle `symlinkErr` supplies
    the exception text, if any, of the failing file. -/
def petscInstallStep (cfg : PetscCfg) (symlinkErr : Option (String × String))
    (st : PetscState) : PetscState :=
  if looseVersionGE cfg.version "3" then st
  else
    match symlinkErr with
    | some fe =>
      { st with errors := st.errors ++
          ["Something went wrong during symlink creation of file " ++ fe.1 ++ ": " ++ fe.2] }
    | none => st

/-- `custom_paths` of `EB_PETSc.sanity_check_step` (petsc.py, lines 329-347):
    source installations prefix the expected paths with `petsc_subdir` (and
    `petsc_arch`), and the library extension is the shared-library extension
    exactly when `shared_libs` is set. -/
def petscSanityPaths (sourceinstall shared_libs : Bool)
    (petsc_subdir petsc_arch shlibExt : String) : SanityPaths :=
  let prefix1 := if sourceinstall then petsc_subdir else ""
  let prefix2 := if sourceinstall then pathJoin petsc_subdir petsc_arch else ""
  let libext := if shared_libs then shlibExt else "a"
  { files := [pathJoin (pathJoin prefix2 "lib") ("libpetsc." ++ libext)],
    dirs := [pathJoin prefix1 "bin", pathJoin prefix2 "conf",
             pathJoin prefix1 "include", pathJoin prefix2 "include"] }

/-! ### Behaviour modelled from the spec (framework code outside src/) -/

/-- Modelled from the spec: `verify_installed` — the host framework's sanity
    check (`sanity_check_step` of the base lifecycle class, not under src/)
    "fails with `MissingArtifactError` listing every absent path if any
    expected file or directory is not present post-install", and succeeds
    silently otherwise. -/
def verify_installed (fileExists dirExists : String → Bool) (paths : SanityPaths) :
    Except (List String) Unit :=
  let missing := paths.files.filter (fun f => !fileExists f)
                 ++ paths.dirs.filter (fun d => !dirExists d)
  if missing.isEmpty then Except.ok () else Except.error missing

/-- Modelled from the spec: the generic configure step MVAPICH2 delegates to
    (`EB_MPICH` and its base class, easyblocks of this repository that are not
    under src/) scans the captured output of the external configure command
    for an error marker substring and marks the step successful exactly when
    the marker is absent. -/
def mpichConfigureOK (out : String) : Bool := !containsStr out "ERROR"

/-! ### Concrete example inputs used by witnesses -/

/-- A sample environment: BLAS/LAPACK variables and compiler flags set. -/
def exGetenv : String → Option String := fun k =>
  if k = "BLAS_LAPACK_LIB_DIR" then some "/bl/lib"
  else if k = "BLAS_LAPACK_STATIC_LIBS" then some "libblas.a,liblapack.a"
  else if k = "CFLAGS" then some "-O2"
  else none

/-- A sample installed-software lookup: Python and SCOTCH present. -/
def exSwroot : String → Option String := fun k =>
  if k = "Python" then some "/sw/python"
  else if k = "SCOTCH" then some "/sw/scotch"
  else none

/-- Sample external collaborators: PAPI files absent, configure output
    containing the error marker while the exit code reports success. -/
def exExt : PetscExt :=
  { getenv := exGetenv, swroot := exSwroot, isfile := fun _ => false,
    compFamilyGCC := true, usempi := false, tcDebug := false, tcPic := true,
    configureOut := "ERROR: configure failed", configureExit := 0,
    petscArchOf := fun _ => none }

/-- Sample external collaborators with an empty environment. -/
def exExtEmpty : PetscExt :=
  { getenv := fun _ => none, swroot := fun _ => none, isfile := fun _ => false,
    compFamilyGCC := true, usempi := false, tcDebug := false, tcPic := true,
    configureOut := "configure done", configureExit := 0,
    petscArchOf := fun _ => none }

/-- Sample PETSc 3.4 configuration with PAPI requested and one extra
    dependency. -/
def exCfg : PetscCfg := { version := "3.4", with_papi := true, deps := ["SCOTCH"] }

/-- Sample PETSc 3.5 configuration. -/
def exCfg35 : PetscCfg := { version := "3.5" }

/-- Initial (empty) state. -/
def exSt : PetscState := {}

/-- The MVAPICH2 configuration of the end-to-end scenario: version "2.0",
    every boolean option false, `rdma_type` at its default, no BLCR paths. -/
def mvapichCfg20 : MvapichCfg := { version := "2.0" }

/-- A sample environment providing a complete FFTW triple. -/
def exTripleEnv : String → Option String := fun k =>
  if k = "FFTW_INC_DIR" then some "/fftw/include"
  else if k = "FFTW_LIB_DIR" then some "/fftw/lib"
  else if k = "FFTW_STATIC_LIBS" then some "libfftw3.a"
  else none

/-! ### Generic lemmas about string containment and flag appending -/

theorem containsL_iff (p s : List Char) : containsL p s = true ↔ p <:+: s := by
  induction s with
  | nil => simp [containsL, List.isEmpty_iff, List.infix_nil]
  | cons c cs ih =>
    simp [containsL, ih, List.infix_cons_iff, List.isPrefixOf_iff_prefix]

theorem containsStr_iff (s pat : String) : containsStr s pat = true ↔ pat.data <:+: s.data :=
  containsL_iff _ _

theorem containsStr_self (x : String) : containsStr x x = true := by
  rw [containsStr_iff]

theorem containsStr_append_left {s pat : String} (t : String)
    (h : containsStr s pat = true) : containsStr (s ++ t) pat = true := by
  rw [containsStr_iff] at h ⊢
  rw [String.data_append]
  obtain ⟨u, v, huv⟩ := h
  exact ⟨u, v ++ t.data, by rw [← huv]; simp⟩

theorem containsStr_append_right {t pat : String} (s : String)
    (h : containsStr t pat = true) : containsStr (s ++ t) pat = true := by
  rw [containsStr_iff] at h ⊢
  rw [String.data_append]
  obtain ⟨u, v, huv⟩ := h
  exact ⟨s.data ++ u, v, by rw [← huv]; simp⟩

theorem containsStr_cfgUpdate_of_left {co pat : String} (t : String)
    (h : containsStr co pat = true) : containsStr (cfgUpdate co t) pat = true :=
  containsStr_append_left t (containsStr_append_left " " h)

theorem containsStr_cfgUpdate_of_right {t pat : String} (co : String)
    (h : containsStr t pat = true) : containsStr (cfgUpdate co t) pat = true :=
  containsStr_append_right (co ++ " ") h

theorem containsStr_foldl_cfgUpdate_of_start (flags : List String) (co pat : String)
    (h : containsStr co pat = true) : containsStr (flags.foldl cfgUpdate co) pat = true := by
  induction flags generalizing co with
  | nil => exact h
  | cons f fs ih => exact ih _ (containsStr_cfgUpdate_of_left f h)

theorem containsStr_foldl_cfgUpdate_of_mem {flags : List String} {x : String}
    (co pat : String) (hx : x ∈ flags) (h : containsStr x pat = true) :
    containsStr (flags.foldl cfgUpdate co) pat = true := by
  induction flags generalizing co with
  | nil => cases hx
  | cons f fs ih =>
    rcases List.mem_cons.mp hx with rfl | hmem
    · exact containsStr_foldl_cfgUpdate_of_start fs _ _ (containsStr_cfgUpdate_of_right co h)
    · exact ih _ hmem

/-! ### Lemmas about the Blender defaults loop -/

theorem blenderDefaultStep_contains (co : String) (kv : String × String) :
    containsStr (blenderDefaultStep co kv) ("-D" ++ kv.1 ++ "=") = true := by
  cases h : containsStr co ("-D" ++ kv.1 ++ "=") with
  | true => simp [blenderDefaultStep, h]
  | false =>
    simp only [blenderDefaultStep, h, Bool.false_eq_true, if_false]
    exact containsStr_cfgUpdate_of_right co (containsStr_append_left kv.2 (containsStr_self _))

theorem blenderDefaultStep_mono {co pat : String} (kv : String × String)
    (h : containsStr co pat = true) : containsStr (blenderDefaultStep co kv) pat = true := by
  cases hc : containsStr co ("-D" ++ kv.1 ++ "=") with
  | true => simpa [blenderDefaultStep, hc]
  | false =>
    simp only [blenderDefaultStep, hc, Bool.false_eq_true, if_false]
    exact containsStr_cfgUpdate_of_left _ h

theorem blenderFold_mono (kvs : List (String × String)) {co pat : String}
    (h : containsStr co pat = true) :
    containsStr (kvs.foldl blenderDefaultStep co) pat = true := by
  induction kvs generalizing co with
  | nil => exact h
  | cons a as ih => exact ih (blenderDefaultStep_mono a h)

theorem blenderFold_contains (kvs : List (String × String)) (co : String)
    (kv : String × String) (hmem : kv ∈ kvs) :
    containsStr (kvs.foldl blenderDefaultStep co) ("-D" ++ kv.1 ++ "=") = true := by
  induction kvs generalizing co with
  | nil => cases hmem
  | cons a as ih =>
    rcases List.mem_cons.mp hmem with rfl | hm
    · exact blenderFold_mono as (blenderDefaultStep_contains co kv)
    · exact ih _ hm

theorem blenderFold_fixed (kvs : List (String × String)) (co : String)
    (h : ∀ kv ∈ kvs, containsStr co ("-D" ++ kv.1 ++ "=") = true) :
    kvs.foldl blenderDefaultStep co = co := by
  induction kvs with
  | nil => rfl
  | cons a as ih =>
    have ha := h a (List.mem_cons_self a as)
    have hstep : blenderDefaultStep co a = co := by simp [blenderDefaultStep, ha]
    rw [List.foldl_cons, hstep]
    exact ih (fun kv hm => h kv (List.mem_cons_of_mem _ hm))

/-! ### Occurrence counting across the blank-separated appends -/

theorem isPrefixOf_append_sep (p : List Char) (t bs : List Char) (hp : ' ' ∉ p) :
    p.isPrefixOf (t ++ ' ' :: bs) = p.isPrefixOf t := by
  induction p generalizing t with
  | nil => simp [List.isPrefixOf]
  | cons q qs ih =>
    cases t with
    | nil =>
      have hq : q ≠ ' ' := fun h => hp (h ▸ List.mem_cons_self q qs)
      simp [List.isPrefixOf_cons₂, hq]
    | cons c ts =>
      simp only [List.cons_append, List.isPrefixOf_cons₂]
      rw [ih ts (fun h => hp (List.mem_cons_of_mem _ h))]

theorem countOccurL_append_sep (p a bs : List Char) (hp : ' ' ∉ p) :
    countOccurL p (a ++ ' ' :: bs) = countOccurL p a + countOccurL p (' ' :: bs) := by
  induction a with
  | nil => simp [countOccurL]
  | cons c cs ih =>
    have h1 : p.isPrefixOf ((c :: cs) ++ ' ' :: bs) = p.isPrefixOf (c :: cs) :=
      isPrefixOf_append_sep p (c :: cs) bs hp
    simp only [List.cons_append] at h1 ⊢
    simp only [countOccurL, h1, ih]
    omega

theorem containsL_iff_countOccurL (p s : List Char) (hne : p ≠ []) :
    containsL p s = true ↔ countOccurL p s ≠ 0 := by
  induction s with
  | nil => simp [containsL, countOccurL, List.isEmpty_iff, hne]
  | cons c cs ih =>
    simp only [containsL, countOccurL, Bool.or_eq_true, ih]
    cases h : p.isPrefixOf (c :: cs) with
    | true =>
      simp only [h, true_or, if_true]
      constructor
      · intro
        omega
      · intro
        trivial
    | false =>
      simp only [h, Bool.false_eq_true, false_or, if_false]
      omega

theorem containsStr_iff_countOccur (s p : String) (hne : p.data ≠ []) :
    containsStr s p = true ↔ countOccur p s ≠ 0 :=
  containsL_iff_countOccurL p.data s.data hne

theorem cfgUpdate_data (a t : String) : (cfgUpdate a t).data = a.data ++ ' ' :: t.data := by
  simp [cfgUpdate]

theorem blenderStep_count (p : String) (hp : ' ' ∉ p.data) (co : String) (kv : String × String)
    (hz : countOccurL p.data (' ' :: ("-D" ++ kv.1 ++ "=" ++ kv.2).data) = 0) :
    countOccur p (blenderDefaultStep co kv) = countOccur p co := by
  cases h : containsStr co ("-D" ++ kv.1 ++ "=") with
  | true => simp [blenderDefaultStep, h]
  | false =>
    simp only [blenderDefaultStep, h, Bool.false_eq_true, if_false]
    unfold countOccur
    rw [cfgUpdate_data, countOccurL_append_sep _ _ _ hp, hz]
    exact Nat.add_zero _

theorem blenderStep_count_self (co : String) (kv : String × String)
    (hp : ' ' ∉ ("-D" ++ kv.1 ++ "=").data)
    (hself : countOccurL ("-D" ++ kv.1 ++ "=").data
        (' ' :: ("-D" ++ kv.1 ++ "=" ++ kv.2).data) = 1) :
    countOccur ("-D" ++ kv.1 ++ "=") (blenderDefaultStep co kv) =
      countOccur ("-D" ++ kv.1 ++ "=") co +
      (if containsStr co ("-D" ++ kv.1 ++ "=") then 0 else 1) := by
  cases h : containsStr co ("-D" ++ kv.1 ++ "=") with
  | true => simp [blenderDefaultStep, h]
  | false =>
    simp only [blenderDefaultStep, h, Bool.false_eq_true, if_false]
    unfold countOccur
    rw [cfgUpdate_data, countOccurL_append_sep _ _ _ hp, hself]

theorem blenderFold_count_zero (p : String) (hp : ' ' ∉ p.data)
    (kvs : List (String × String)) (co : String)
    (hz : ∀ kv ∈ kvs, countOccurL p.data (' ' :: ("-D" ++ kv.1 ++ "=" ++ kv.2).data) = 0) :
    countOccur p (kvs.foldl blenderDefaultStep co) = countOccur p co := by
  induction kvs generalizing co with
  | nil => rfl
  | cons a as ih =>
    rw [List.foldl_cons]
    rw [ih (blenderDefaultStep co a) (fun kv hm => hz kv (List.mem_cons_of_mem _ hm))]
    exact blenderStep_count p hp co a (hz a (List.mem_cons_self a as))

theorem blenderFold_count_main (kv : String × String) (pre post : List (String × String))
    (co : String)
    (hp : ' ' ∉ ("-D" ++ kv.1 ++ "=").data)
    (hne : ("-D" ++ kv.1 ++ "=").data ≠ [])
    (hself : countOccurL ("-D" ++ kv.1 ++ "=").data
        (' ' :: ("-D" ++ kv.1 ++ "=" ++ kv.2).data) = 1)
    (hpre : ∀ kv' ∈ pre, countOccurL ("-D" ++ kv.1 ++ "=").data
        (' ' :: ("-D" ++ kv'.1 ++ "=" ++ kv'.2).data) = 0)
    (hpost : ∀ kv' ∈ post, countOccurL ("-D" ++ kv.1 ++ "=").data
        (' ' :: ("-D" ++ kv'.1 ++ "=" ++ kv'.2).data) = 0) :
    countOccur ("-D" ++ kv.1 ++ "=") ((pre ++ kv :: post).foldl blenderDefaultStep co) =
      countOccur ("-D" ++ kv.1 ++ "=") co +
      (if containsStr co ("-D" ++ kv.1 ++ "=") then 0 else 1) := by
  have hc1 : countOccur ("-D" ++ kv.1 ++ "=") (pre.foldl blenderDefaultStep co) =
      countOccur ("-D" ++ kv.1 ++ "=") co :=
    blenderFold_count_zero _ hp pre co hpre
  have hcont1 : containsStr (pre.foldl blenderDefaultStep co) ("-D" ++ kv.1 ++ "=") =
      containsStr co ("-D" ++ kv.1 ++ "=") := by
    cases h : containsStr co ("-D" ++ kv.1 ++ "=") with
    | true =>
      have hnz := (containsStr_iff_countOccur co _ hne).mp h
      exact (containsStr_iff_countOccur _ _ hne).mpr (by rw [hc1]; exact hnz)
    | false =>
      have hcz : countOccur ("-D" ++ kv.1 ++ "=") co = 0 := by
        by_contra hnz
        have := (containsStr_iff_countOccur co _ hne).mpr hnz
        rw [h] at this
        cases this
      cases hq : containsStr (pre.foldl blenderDefaultStep co) ("-D" ++ kv.1 ++ "=") with
      | false => rfl
      | true =>
        have := (containsStr_iff_countOccur _ _ hne).mp hq
        rw [hc1] at this
        exact absurd hcz this
  rw [List.foldl_append, List.foldl_cons]
  rw [blenderFold_count_zero _ hp post _ hpost]
  rw [blenderStep_count_self (pre.foldl blenderDefaultStep co) kv hp hself]
  rw [hc1, hcont1]

/-! ### Projection lemmas for the PETSc configure step -/

theorem petscConfigureStepNew_parallel (cfg : PetscCfg) (ext : PetscExt) (st : PetscState) :
    (petscConfigureStepNew cfg ext st).parallel = st.parallel := rfl

theorem petscConfigureStepOld_parallel (cfg : PetscCfg) (ext : PetscExt) (st : PetscState) :
    (petscConfigureStepOld cfg ext st).parallel = st.parallel := rfl

theorem petscConfigureStep_errors (cfg : PetscCfg) (ext : PetscExt) (st : PetscState)
    (h3 : looseVersionGE cfg.version "3" = true) :
    (petscConfigureStep cfg ext st).errors = (petscConfigureStepNew cfg ext st).errors := by
  unfold petscConfigureStep
  cases h35 : looseVersionGE cfg.version "3.5" <;> simp [h3, h35]

theorem petscConfigureStep_infos (cfg : PetscCfg) (ext : PetscExt) (st : PetscState)
    (h3 : looseVersionGE cfg.version "3" = true) :
    (petscConfigureStep cfg ext st).infos = (petscConfigureStepNew cfg ext st).infos := by
  unfold petscConfigureStep
  cases h35 : looseVersionGE cfg.version "3.5" <;> simp [h3, h35]

theorem petscConfigureStep_configopts (cfg : PetscCfg) (ext : PetscExt) (st : PetscState)
    (h3 : looseVersionGE cfg.version "3" = true) :
    (petscConfigureStep cfg ext st).configopts = (petscConfigureStepNew cfg ext st).configopts := by
  unfold petscConfigureStep
  cases h35 : looseVersionGE cfg.version "3.5" <;> simp [h3, h35]

theorem petscConfigureStepNew_configopts (cfg : PetscCfg) (ext : PetscExt) (st : PetscState) :
    (petscConfigureStepNew cfg ext st).configopts =
      (petscNewFlags cfg ext st.parallel).foldl cfgUpdate st.configopts := rfl

theorem verify_installed_eq (fe de : String → Bool) (paths : SanityPaths) :
    verify_installed fe de paths =
      if (paths.files.filter (fun f => !fe f) ++ paths.dirs.filter (fun d => !de d)).isEmpty
      then Except.ok ()
      else Except.error
        (paths.files.filter (fun f => !fe f) ++ paths.dirs.filter (fun d => !de d)) := rfl

/-! ### Claim theorems -/

set_option maxRecDepth 8192 in
/-- C1 (counterexample): the claim "for every package module's configure
    step, flag assembly is idempotent per option key" fails on
    `EB_MVAPICH2.configure_step`: starting from an empty `configopts`, a
    first run appends `--with-rdma=gen2` once, and a second identical run
    appends it again even though its key is already present, duplicating the
    flag. -/
theorem mvapich2_configure_duplicates_flags :
    countOccur "--with-rdma=" (mvapich2ConfigureStep mvapichCfg20 "") = 1 ∧
    countOccur "--with-rdma="
      (mvapich2ConfigureStep mvapichCfg20 (mvapich2ConfigureStep mvapichCfg20 "")) = 2 :=
  ⟨rfl, rfl⟩

/-- C1 (amended): in the Blender defaults loop — the only configure step of
    the three modules that checks key presence before appending — for every
    pre-existing `configopts` string S and every default key: the number of
    occurrences of the key's flag prefix `-D<KEY>=` after applying the
    defaults equals the number before, plus one exactly when the key was not
    yet present; in particular a flag whose key already appears in S is never
    appended again, a string already carrying every key is left unchanged,
    and repeating the step is idempotent. -/
theorem blender_apply_defaults_no_duplication :
    (∀ S : String, ∀ kv ∈ blenderDefaultConfigOpts,
       countOccur ("-D" ++ kv.1 ++ "=") (blenderApplyDefaults S) =
         countOccur ("-D" ++ kv.1 ++ "=") S +
         (if containsStr S ("-D" ++ kv.1 ++ "=") then 0 else 1)) ∧
    (∀ S : String, ∀ kv ∈ blenderDefaultConfigOpts,
       containsStr S ("-D" ++ kv.1 ++ "=") = true →
       countOccur ("-D" ++ kv.1 ++ "=") (blenderApplyDefaults S) =
         countOccur ("-D" ++ kv.1 ++ "=") S) ∧
    (∀ S : String,
       (∀ kv ∈ blenderDefaultConfigOpts, containsStr S ("-D" ++ kv.1 ++ "=") = true) →
       blenderApplyDefaults S = S) ∧
    (∀ S : String, blenderApplyDefaults (blenderApplyDefaults S) = blenderApplyDefaults S) := by
  have main : ∀ S : String, ∀ kv ∈ blenderDefaultConfigOpts,
      countOccur ("-D" ++ kv.1 ++ "=") (blenderApplyDefaults S) =
        countOccur ("-D" ++ kv.1 ++ "=") S +
        (if containsStr S ("-D" ++ kv.1 ++ "=") then 0 else 1) := by
    intro S kv hkv
    simp only [blenderDefaultConfigOpts, List.mem_cons, List.not_mem_nil, or_false] at hkv
    rcases hkv with rfl | rfl | rfl | rfl | rfl | rfl | rfl
    · exact blenderFold_count_main _ []
        [("WITH_BUILDINFO", "OFF"), ("WITH_CPU_SSE", "OFF"),
         ("CMAKE_C_FLAGS_RELEASE", "-DNDEBUG"), ("CMAKE_CXX_FLAGS_RELEASE", "-DNDEBUG"),
         ("WITH_GAMEENGINE", "OFF"), ("WITH_SYSTEM_GLEW", "OFF")] S
        (by decide) (by decide) (by decide) (by decide) (by decide)
    · exact blenderFold_count_main _ [("WITH_INSTALL_PORTABLE", "OFF")]
        [("WITH_CPU_SSE", "OFF"),
         ("CMAKE_C_FLAGS_RELEASE", "-DNDEBUG"), ("CMAKE_CXX_FLAGS_RELEASE", "-DNDEBUG"),
         ("WITH_GAMEENGINE", "OFF"), ("WITH_SYSTEM_GLEW", "OFF")] S
        (by decide) (by decide) (by decide) (by decide) (by decide)
    · exact blenderFold_count_main _
        [("WITH_INSTALL_PORTABLE", "OFF"), ("WITH_BUILDINFO", "OFF")]
        [("CMAKE_C_FLAGS_RELEASE", "-DNDEBUG"), ("CMAKE_CXX_FLAGS_RELEASE", "-DNDEBUG"),
         ("WITH_GAMEENGINE", "OFF"), ("WITH_SYSTEM_GLEW", "OFF")] S
        (by decide) (by decide) (by decide) (by decide) (by decide)
    · exact blenderFold_count_main _
        [("WITH_INSTALL_PORTABLE", "OFF"), ("WITH_BUILDINFO", "OFF"), ("WITH_CPU_SSE", "OFF")]
        [("CMAKE_CXX_FLAGS_RELEASE", "-DNDEBUG"),
         ("WITH_GAMEENGINE", "OFF"), ("WITH_SYSTEM_GLEW", "OFF")] S
        (by decide) (by decide) (by decide) (by decide) (by decide)
    · exact blenderFold_count_main _
        [("WITH_INSTALL_PORTABLE", "OFF"), ("WITH_BUILDINFO", "OFF"), ("WITH_CPU_SSE", "OFF"),
         ("CMAKE_C_FLAGS_RELEASE", "-DNDEBUG")]
        [("WITH_GAMEENGINE", "OFF"), ("WITH_SYSTEM_GLEW", "OFF")] S
        (by decide) (by decide) (by decide) (by decide) (by decide)
    · exact blenderFold_count_main _
        [("WITH_INSTALL_PORTABLE", "OFF"), ("WITH_BUILDINFO", "OFF"), ("WITH_CPU_SSE", "OFF"),
         ("CMAKE_C_FLAGS_RELEASE", "-DNDEBUG"), ("CMAKE_CXX_FLAGS_RELEASE", "-DNDEBUG")]
        [("WITH_SYSTEM_GLEW", "OFF")] S
        (by decide) (by decide) (by decide) (by decide) (by decide)
    · exact blenderFold_count_main _
        [("WITH_INSTALL_PORTABLE", "OFF"), ("WITH_BUILDINFO", "OFF"), ("WITH_CPU_SSE", "OFF"),
         ("CMAKE_C_FLAGS_RELEASE", "-DNDEBUG"), ("CMAKE_CXX_FLAGS_RELEASE", "-DNDEBUG"),
         ("WITH_GAMEENGINE", "OFF")] [] S
        (by decide) (by decide) (by decide) (by decide) (by decide)
  refine ⟨main, ?_, ?_, ?_⟩
  · intro S kv hkv h
    have h1 := main S kv hkv
    rw [h] at h1
    simpa using h1
  · exact fun S h => blenderFold_fixed _ S h
  · intro S
    exact blenderFold_fixed _ _ (fun kv hm => blenderFold_contains _ S kv hm)

/-- C1 witness: the amended theorem applied to the partially-saturated string
    `-DWITH_CPU_SSE=ON` — for the key already present nothing is appended
    (its occurrence count is unchanged) — and to the configopts produced by a
    first run of the defaults loop. -/
theorem blender_apply_defaults_no_duplication_witness :
    countOccur "-DWITH_CPU_SSE=" (blenderApplyDefaults "-DWITH_CPU_SSE=ON") =
      countOccur "-DWITH_CPU_SSE=" "-DWITH_CPU_SSE=ON" ∧
    blenderApplyDefaults (blenderApplyDefaults "") = blenderApplyDefaults "" :=
  ⟨blender_apply_defaults_no_duplication.2.1 "-DWITH_CPU_SSE=ON" ("WITH_CPU_SSE", "OFF")
     (by decide) (by decide),
   blender_apply_defaults_no_duplication.2.2.1 (blenderApplyDefaults "") (by decide)⟩

/-- C2: `find_glob_pattern` returns the single match when the glob yields
    exactly one, and otherwise fails with an error payload carrying the
    pattern, the actual match count and the full match list verbatim. -/
theorem find_glob_pattern_spec (globfn : String → List String) (p x : String) :
    (globfn p = [x] → find_glob_pattern globfn p = Except.ok x) ∧
    ((globfn p).length ≠ 1 →
       find_glob_pattern globfn p = Except.error ⟨p, (globfn p).length, globfn p⟩) := by
  constructor
  · intro h
    simp [find_glob_pattern, h]
  · intro h
    simp only [find_glob_pattern]
    rw [dif_pos h]

/-- C2 witness: a two-match glob fails with count 2 and both matches listed. -/
theorem find_glob_pattern_spec_witness :
    find_glob_pattern (fun _ => ["numpy-a.egg", "numpy-b.egg"]) "numpy-*.egg" =
      Except.error ⟨"numpy-*.egg", 2, ["numpy-a.egg", "numpy-b.egg"]⟩ :=
  (find_glob_pattern_spec (fun _ => ["numpy-a.egg", "numpy-b.egg"]) "numpy-*.egg"
    "numpy-a.egg").2 (by decide)

/-- C3: version-threshold flag selection is boundary-inclusive: version "3.4"
    selects the pre-3.5 compiler-flag names (`--with-cflags` /
    `--with-cxxflags` / `--with-fcflags`) and the `--with-scotch` name, while
    "3.5" and "3.5.1" select the post-3.5 names (`--CFLAGS` / `--CXXFLAGS` /
    `--FFLAGS`, `--with-ptscotch`). -/
theorem petsc_version_threshold_selection (getenv : String → Option String) :
    petscCompilerFlagOpts "3.4" getenv =
      ["--with-cflags=" ++ quo (pyStr (getenv "CFLAGS")),
       "--with-cxxflags=" ++ quo (pyStr (getenv "CXXFLAGS")),
       "--with-fcflags=" ++ quo (pyStr (getenv "F90FLAGS"))] ∧
    petscCompilerFlagOpts "3.5" getenv =
      ["--CFLAGS=" ++ quo (pyStr (getenv "CFLAGS")),
       "--CXXFLAGS=" ++ quo (pyStr (getenv "CXXFLAGS")),
       "--FFLAGS=" ++ quo (pyStr (getenv "F90FLAGS"))] ∧
    petscCompilerFlagOpts "3.5.1" getenv =
      ["--CFLAGS=" ++ quo (pyStr (getenv "CFLAGS")),
       "--CXXFLAGS=" ++ quo (pyStr (getenv "CXXFLAGS")),
       "--FFLAGS=" ++ quo (pyStr (getenv "F90FLAGS"))] ∧
    petscWithdep "3.4" "SCOTCH" = "--with-scotch" ∧
    petscWithdep "3.5" "SCOTCH" = "--with-ptscotch" ∧
    petscWithdep "3.5.1" "SCOTCH" = "--with-ptscotch" := by
  refine ⟨?_, ?_, ?_, by decide, by decide, by decide⟩
  · simp [petscCompilerFlagOpts, show looseVersionGE "3.4" "3.5" = false from by decide]
  · simp [petscCompilerFlagOpts, show looseVersionGE "3.5" "3.5" = true from by decide]
  · simp [petscCompilerFlagOpts, show looseVersionGE "3.5.1" "3.5" = true from by decide]

/-- C9: for MVAPICH2 version "2.0" with every boolean option false,
    `rdma_type` at its default `gen2` and no BLCR paths, the configure step
    appends exactly the fixed baseline flag set, in order, with no optional
    flags; and (modelled from the spec) the delegated generic configure step
    is marked successful exactly when the captured output contains no error
    marker. -/
theorem mvapich2_baseline_flags :
    mvapich2AddConfigopts mvapichCfg20 =
      ["--with-rdma=gen2", "--with-thread-package=pthreads", "--enable-fast",
       "--enable-shared", "--enable-sharedlibs=gcc", "--enable-f77",
       "--enable-fc", "--enable-cxx"] ∧
    mvapich2ConfigureStep mvapichCfg20 "" =
      " --with-rdma=gen2 --with-thread-package=pthreads --enable-fast --enable-shared --enable-sharedlibs=gcc --enable-f77 --enable-fc --enable-cxx" ∧
    mpichConfigureOK "checking build system type... x86_64-unknown-linux-gnu" = true ∧
    mpichConfigureOK "configure: ERROR: C compiler cannot create executables" = false :=
  ⟨rfl, rfl, rfl, rfl⟩

/-- C10: the PETSc configure step sets the `parallel` option to `None`
    exactly for versions ≥ 3.5 (disabling parallel make for the build step)
    and leaves it unchanged for every version below 3.5; the install step
    never modifies it. -/
theorem petsc_parallel_frame (cfg : PetscCfg) (ext : PetscExt) (st : PetscState) :
    ((petscConfigureStep cfg ext st).parallel =
       if looseVersionGE cfg.version "3.5" then none else st.parallel) ∧
    (∀ symlinkErr, (petscInstallStep cfg symlinkErr st).parallel = st.parallel) := by
  constructor
  · unfold petscConfigureStep
    cases h35 : looseVersionGE cfg.version "3.5" with
    | true => simp [h35]
    | false =>
      cases h3 : looseVersionGE cfg.version "3" with
      | true => simp [h35, h3, petscConfigureStepNew_parallel]
      | false => simp [h35, h3, petscConfigureStepOld_parallel]
  · intro symlinkErr
    unfold petscInstallStep
    cases h3 : looseVersionGE cfg.version "3" with
    | true => simp [h3]
    | false =>
      cases symlinkErr with
      | none => simp [h3]
      | some fe => simp [h3]

/-- C5: for PETSc ≥ 3 the captured output of the external configure command
    is scanned for the error marker substring "ERROR"; when the marker is
    present the step records the fatal diagnostic even when the external
    tool's exit code reported success. -/
theorem petsc_configure_output_scan (cfg : PetscCfg) (ext : PetscExt) (st : PetscState)
    (h3 : looseVersionGE cfg.version "3" = true)
    (herr : containsStr ext.configureOut "ERROR" = true)
    (hexit : ext.configureExit = 0) :
    configureScanErrMsg ∈ (petscConfigureStep cfg ext st).errors ∧
    (petscConfigureStep cfg ext st).errors ≠ [] := by
  have hmem : configureScanErrMsg ∈ (petscConfigureStepNew cfg ext st).errors := by
    simp [petscConfigureStepNew, herr]
  rw [petscConfigureStep_errors cfg ext st h3]
  exact ⟨hmem, List.ne_nil_of_mem hmem⟩

/-- C5 witness: PETSc 3.4 with configure output "ERROR: configure failed"
    and exit code 0. -/
theorem petsc_configure_output_scan_witness :
    configureScanErrMsg ∈ (petscConfigureStep exCfg exExt exSt).errors ∧
    (petscConfigureStep exCfg exExt exSt).errors ≠ [] :=
  petsc_configure_output_scan exCfg exExt exSt (by decide) (by decide) rfl

/-- C6: during PETSc ≥ 3 configuration a missing (unset or empty) required
    BLAS/LAPACK environment value records a fatal descriptive error and the
    `--with-blas-lapack-lib` option is not emitted, while an incomplete
    optional FFTW environment triple merely logs an informational message
    (no error) and silently emits no FFTW options. -/
theorem petsc_required_fatal_optional_silent (cfg : PetscCfg) (ext : PetscExt) (st : PetscState)
    (h3 : looseVersionGE cfg.version "3" = true)
    (h35 : looseVersionGE cfg.version "3.5" = true)
    (hbl : truthy (ext.getenv "BLAS_LAPACK_LIB_DIR") = false ∨
           truthy (ext.getenv "BLAS_LAPACK_STATIC_LIBS") = false)
    (hff : truthy (ext.getenv "FFTW_INC_DIR") = false ∨
           truthy (ext.getenv "FFTW_LIB_DIR") = false ∨
           truthy (ext.getenv "FFTW_STATIC_LIBS") = false) :
    petscBlasLapackOpts ext.getenv = ([], [blasLapackErrMsg]) ∧
    blasLapackErrMsg ∈ (petscConfigureStep cfg ext st).errors ∧
    (petscConfigureStep cfg ext st).errors ≠ [] ∧
    petscEnvDepOpts ext.getenv "FFTW" "--with-fftw" "FFTW" =
      ([], ["Missing inc/lib info, so not enabling FFTW support."]) ∧
    "Missing inc/lib info, so not enabling FFTW support." ∈
      (petscConfigureStep cfg ext st).infos := by
  have hblEq : petscBlasLapackOpts ext.getenv = ([], [blasLapackErrMsg]) := by
    rcases hbl with h | h <;> simp [petscBlasLapackOpts, h]
  have hffEq : petscEnvDepOpts ext.getenv "FFTW" "--with-fftw" "FFTW" =
      ([], ["Missing inc/lib info, so not enabling FFTW support."]) := by
    rcases hff with h | h | h <;> simp [petscEnvDepOpts, h]
  have hmem : blasLapackErrMsg ∈ (petscConfigureStepNew cfg ext st).errors := by
    simp [petscConfigureStepNew, hblEq]
  refine ⟨hblEq, ?_, ?_, hffEq, ?_⟩
  · rw [petscConfigureStep_errors cfg ext st h3]
    exact hmem
  · rw [petscConfigureStep_errors cfg ext st h3]
    exact List.ne_nil_of_mem hmem
  · rw [petscConfigureStep_infos cfg ext st h3]
    simp [petscConfigureStepNew, petscFftwScalapackOpts, h35, hffEq]

/-- C6 witness: PETSc 3.5 with an entirely empty environment. -/
theorem petsc_required_fatal_optional_silent_witness :
    petscBlasLapackOpts exExtEmpty.getenv = ([], [blasLapackErrMsg]) ∧
    blasLapackErrMsg ∈ (petscConfigureStep exCfg35 exExtEmpty exSt).errors ∧
    (petscConfigureStep exCfg35 exExtEmpty exSt).errors ≠ [] ∧
    petscEnvDepOpts exExtEmpty.getenv "FFTW" "--with-fftw" "FFTW" =
      ([], ["Missing inc/lib info, so not enabling FFTW support."]) ∧
    "Missing inc/lib info, so not enabling FFTW support." ∈
      (petscConfigureStep exCfg35 exExtEmpty exSt).infos :=
  petsc_required_fatal_optional_silent exCfg35 exExtEmpty exSt (by decide) (by decide)
    (Or.inl (by decide)) (Or.inl (by decide))

/-- C7: with `with_papi` enabled and the PAPI header or library file absent,
    the PETSc configure step records the failed path check as a fatal
    diagnostic via logging, emits no `--with-papi` options, and still
    executes the remaining dependency logic: the Python, BLAS/LAPACK and
    additional-dependency options are appended to `configopts` after the
    message is logged. -/
theorem petsc_papi_failed_check_continues (cfg : PetscCfg) (ext : PetscExt) (st : PetscState)
    (dep : String)
    (h3 : looseVersionGE cfg.version "3" = true)
    (hp : cfg.with_papi = true)
    (hmiss : (ext.isfile (pathJoin cfg.papi_inc "papi.h") && ext.isfile cfg.papi_lib) = false)
    (hpy : truthy (ext.swroot "Python") = true)
    (hbl1 : truthy (ext.getenv "BLAS_LAPACK_LIB_DIR") = true)
    (hbl2 : truthy (ext.getenv "BLAS_LAPACK_STATIC_LIBS") = true)
    (hdep : dep ∈ cfg.deps)
    (hfil : (petscDepFilter cfg.builddeps).contains dep = false)
    (hroot : truthy (ext.swroot dep) = true) :
    (petscPapiOpts cfg ext.isfile).1 = [] ∧
    papiErrMsg (pathJoin cfg.papi_inc "papi.h") cfg.papi_lib ∈
      (petscConfigureStep cfg ext st).errors ∧
    containsStr (petscConfigureStep cfg ext st).configopts "--with-numpy=1" = true ∧
    containsStr (petscConfigureStep cfg ext st).configopts "--with-blas-lapack-lib=" = true ∧
    containsStr (petscConfigureStep cfg ext st).configopts
      (petscWithdep cfg.version dep ++ "=1 " ++ petscWithdep cfg.version dep ++ "-dir=" ++
       optVal (ext.swroot dep)) = true := by
  have hpapi : petscPapiOpts cfg ext.isfile =
      ([], [papiErrMsg (pathJoin cfg.papi_inc "papi.h") cfg.papi_lib]) := by
    simp [petscPapiOpts, hp, hmiss]
  have hblEq : petscBlasLapackOpts ext.getenv =
      (["--with-blas-lapack-lib=[" ++ optVal (ext.getenv "BLAS_LAPACK_LIB_DIR") ++ "/" ++
        optVal (ext.getenv "BLAS_LAPACK_STATIC_LIBS") ++ "]"], []) := by
    simp [petscBlasLapackOpts, hbl1, hbl2]
  have hd : petscDepOpt cfg.version ext.swroot dep =
      some (petscWithdep cfg.version dep ++ "=1 " ++ petscWithdep cfg.version dep ++ "-dir=" ++
            optVal (ext.swroot dep)) := by
    simp [petscDepOpt, hroot]
  have hmemflt : dep ∈ cfg.deps.filter (fun d => !((petscDepFilter cfg.builddeps).contains d)) :=
    List.mem_filter.mpr ⟨hdep, by simpa using hfil⟩
  have hdeps : (petscWithdep cfg.version dep ++ "=1 " ++ petscWithdep cfg.version dep ++ "-dir=" ++
      optVal (ext.swroot dep)) ∈ petscDepsOpts cfg.version cfg.builddeps cfg.deps ext.swroot :=
    List.mem_filterMap.mpr ⟨dep, hmemflt, hd⟩
  refine ⟨by rw [hpapi], ?_, ?_, ?_, ?_⟩
  · rw [petscConfigureStep_errors cfg ext st h3]
    simp [petscConfigureStepNew, hpapi]
  · rw [petscConfigureStep_configopts cfg ext st h3, petscConfigureStepNew_configopts]
    have hx : "--with-numpy=1" ∈ petscNewFlags cfg ext st.parallel := by
      simp [petscNewFlags, petscPythonOpts, hpy]
    exact containsStr_foldl_cfgUpdate_of_mem _ _ hx (containsStr_self _)
  · rw [petscConfigureStep_configopts cfg ext st h3, petscConfigureStepNew_configopts]
    have hx : ("--with-blas-lapack-lib=[" ++ optVal (ext.getenv "BLAS_LAPACK_LIB_DIR") ++ "/" ++
        optVal (ext.getenv "BLAS_LAPACK_STATIC_LIBS") ++ "]") ∈
        petscNewFlags cfg ext st.parallel := by
      simp [petscNewFlags, hblEq]
    refine containsStr_foldl_cfgUpdate_of_mem _ _ hx ?_
    exact containsStr_append_left _ (containsStr_append_left _ (containsStr_append_left _
      (containsStr_append_left _ (by decide))))
  · rw [petscConfigureStep_configopts cfg ext st h3, petscConfigureStepNew_configopts]
    have hx : (petscWithdep cfg.version dep ++ "=1 " ++ petscWithdep cfg.version dep ++ "-dir=" ++
        optVal (ext.swroot dep)) ∈ petscNewFlags cfg ext st.parallel := by
      simp only [petscNewFlags, List.mem_append]
      tauto
    exact containsStr_foldl_cfgUpdate_of_mem _ _ hx (containsStr_self _)

/-- C7 witness: PETSc 3.4 with PAPI requested but absent, Python and SCOTCH
    present and the BLAS/LAPACK environment set. -/
theorem petsc_papi_failed_check_continues_witness :
    (petscPapiOpts exCfg exExt.isfile).1 = [] ∧
    papiErrMsg (pathJoin exCfg.papi_inc "papi.h") exCfg.papi_lib ∈
      (petscConfigureStep exCfg exExt exSt).errors ∧
    containsStr (petscConfigureStep exCfg exExt exSt).configopts "--with-numpy=1" = true ∧
    containsStr (petscConfigureStep exCfg exExt exSt).configopts "--with-blas-lapack-lib=" = true ∧
    containsStr (petscConfigureStep exCfg exExt exSt).configopts
      (petscWithdep exCfg.version "SCOTCH" ++ "=1 " ++ petscWithdep exCfg.version "SCOTCH" ++
       "-dir=" ++ optVal (exExt.swroot "SCOTCH")) = true :=
  petsc_papi_failed_check_continues exCfg exExt exSt "SCOTCH" (by decide) rfl (by decide)
    (by decide) (by decide) (by decide) (by decide) (by decide) (by decide)

/-- C8: post-install sanity verification (modelled from the spec for the
    framework side) succeeds silently exactly when every expected file and
    directory is present and otherwise fails listing exactly the absent
    paths; the PETSc expected paths are prefixed with `petsc_subdir` (and
    `petsc_arch`) under `sourceinstall` and use the shared-library extension
    exactly when `shared_libs` is set ("a" otherwise), and Blender expects
    `bin/blender`. -/
theorem sanity_verification_spec (fe de : String → Bool) (paths : SanityPaths) :
    (verify_installed fe de paths = Except.ok () ↔
       (∀ f ∈ paths.files, fe f = true) ∧ (∀ d ∈ paths.dirs, de d = true)) ∧
    (∀ m, verify_installed fe de paths = Except.error m →
       ∀ p, p ∈ m ↔ ((p ∈ paths.files ∧ fe p = false) ∨ (p ∈ paths.dirs ∧ de p = false))) ∧
    (∀ subdir arch shlib,
       petscSanityPaths true true subdir arch shlib =
         { files := [pathJoin (pathJoin (pathJoin subdir arch) "lib") ("libpetsc." ++ shlib)],
           dirs := [pathJoin subdir "bin", pathJoin (pathJoin subdir arch) "conf",
                    pathJoin subdir "include", pathJoin (pathJoin subdir arch) "include"] }) ∧
    (∀ subdir arch shlib, (petscSanityPaths true false subdir arch shlib).files =
       [pathJoin (pathJoin (pathJoin subdir arch) "lib") "libpetsc.a"]) ∧
    (∀ shlib, petscSanityPaths false false "" "" shlib =
       { files := ["lib/libpetsc.a"], dirs := ["bin", "conf", "include", "include"] }) ∧
    blenderSanityPaths = { files := ["bin/blender"], dirs := [] } := by
  refine ⟨?_, ?_, fun subdir arch shlib => rfl, fun subdir arch shlib => rfl,
          fun shlib => rfl, rfl⟩
  · rw [verify_installed_eq]
    constructor
    · intro h
      have hE : (paths.files.filter (fun f => !fe f) ++
          paths.dirs.filter (fun d => !de d)).isEmpty = true := by
        by_contra hne
        simp only [Bool.not_eq_true] at hne
        rw [hne] at h
        simp at h
      have h0 := List.isEmpty_iff.mp hE
      rw [List.append_eq_nil] at h0
      obtain ⟨h1, h2⟩ := h0
      rw [List.filter_eq_nil_iff] at h1 h2
      constructor
      · intro f hf
        have := h1 f hf
        simpa using this
      · intro d hd
        have := h2 d hd
        simpa using this
    · rintro ⟨h1, h2⟩
      have hE : (paths.files.filter (fun f => !fe f) ++
          paths.dirs.filter (fun d => !de d)).isEmpty = true := by
        rw [List.isEmpty_iff, List.append_eq_nil]
        constructor <;> rw [List.filter_eq_nil_iff]
        · intro a ha
          simp [h1 a ha]
        · intro a ha
          simp [h2 a ha]
      rw [hE]
      simp
  · intro m hm p
    rw [verify_installed_eq] at hm
    cases hE : (paths.files.filter (fun f => !fe f) ++
        paths.dirs.filter (fun d => !de d)).isEmpty with
    | true =>
      rw [hE] at hm
      simp at hm
    | false =>
      rw [hE] at hm
      simp only [Bool.false_eq_true, if_false, Except.error.injEq] at hm
      subst hm
      simp [List.mem_append, List.mem_filter, Bool.not_eq_true']

/-- C8 witness: the spec's example — expected file `bin/x` absent fails
    listing exactly `bin/x`. -/
theorem sanity_verification_spec_witness :
    ("bin/x" ∈ (["bin/x"] : List String)) ↔
      (("bin/x" ∈ (["bin/x"] : List String) ∧ false = false) ∨
       ("bin/x" ∈ ([] : List String) ∧ true = false)) :=
  (sanity_verification_spec (fun _ => false) (fun _ => true) ⟨["bin/x"], []⟩).2.1
    ["bin/x"] rfl "bin/x"

/-- C4 (counterexample): the claim "when present, exactly the
    include/lib/root flag triple for that dependency is emitted" fails at the
    additional-dependency site: a present SCOTCH root under PETSc 3.4 emits
    only the enable and `-dir` options in a single update — no `-include=`
    and no `-lib=` flag is emitted for it. -/
theorem petsc_dep_pair_not_triple :
    petscDepsOpts "3.4" [] ["SCOTCH"]
        (fun n => if n = "SCOTCH" then some "/opt/scotch" else none) =
      ["--with-scotch=1 --with-scotch-dir=/opt/scotch"] ∧
    containsStr "--with-scotch=1 --with-scotch-dir=/opt/scotch" "-include=" = false ∧
    containsStr "--with-scotch=1 --with-scotch-dir=/opt/scotch" "-lib=" = false :=
  ⟨rfl, rfl, rfl⟩

/-- C4 (amended): an absent optional dependency emits zero flags and no
    error; a present environment-triple dependency emits exactly the
    enable/include/lib options with the environment values verbatim; a
    present software-root dependency emits exactly the enable option and a
    single `-dir` option carrying the resolved root verbatim. -/
theorem petsc_optional_dep_emission (getenv swroot : String → Option String)
    (envName withArg label version dep : String) :
    ((truthy (getenv (envName ++ "_INC_DIR")) = false ∨
      truthy (getenv (envName ++ "_LIB_DIR")) = false ∨
      truthy (getenv (envName ++ "_STATIC_LIBS")) = false) →
      (petscEnvDepOpts getenv envName withArg label).1 = []) ∧
    ((truthy (getenv (envName ++ "_INC_DIR")) = true ∧
      truthy (getenv (envName ++ "_LIB_DIR")) = true ∧
      truthy (getenv (envName ++ "_STATIC_LIBS")) = true) →
      (petscEnvDepOpts getenv envName withArg label).1 =
        [withArg ++ "=1",
         withArg ++ "-include=" ++ optVal (getenv (envName ++ "_INC_DIR")),
         withArg ++ "-lib=[" ++ optVal (getenv (envName ++ "_LIB_DIR")) ++ "/" ++
           optVal (getenv (envName ++ "_STATIC_LIBS")) ++ "]"]) ∧
    (swroot dep = none → petscDepOpt version swroot dep = none) ∧
    (truthy (swroot dep) = true →
      petscDepOpt version swroot dep =
        some (petscWithdep version dep ++ "=1 " ++ petscWithdep version dep ++ "-dir=" ++
              optVal (swroot dep))) := by
  refine ⟨?_, ?_, ?_, ?_⟩
  · rintro (h | h | h) <;> simp [petscEnvDepOpts, h]
  · rintro ⟨h1, h2, h3⟩
    simp [petscEnvDepOpts, h1, h2, h3]
  · intro h
    simp [petscDepOpt, h, truthy]
  · intro h
    simp [petscDepOpt, h]

/-- C4 witness: an empty environment emits no FFTW flags; a complete FFTW
    triple emits exactly the three options; a present SCOTCH root under 3.5
    emits exactly the enable/dir pair. -/
theorem petsc_optional_dep_emission_witness :
    (petscEnvDepOpts (fun _ => none) "FFTW" "--with-fftw" "FFTW").1 = [] ∧
    (petscEnvDepOpts exTripleEnv "FFTW" "--with-fftw" "FFTW").1 =
      ["--with-fftw=1", "--with-fftw-include=/fftw/include",
       "--with-fftw-lib=[/fftw/lib/libfftw3.a]"] ∧
    petscDepOpt "3.5" exSwroot "SCOTCH" =
      some "--with-ptscotch=1 --with-ptscotch-dir=/sw/scotch" :=
  ⟨(petsc_optional_dep_emission (fun _ => none) exSwroot "FFTW" "--with-fftw" "FFTW" "3.5"
      "SCOTCH").1 (Or.inl (by decide)),
   (petsc_optional_dep_emission exTripleEnv exSwroot "FFTW" "--with-fftw" "FFTW" "3.5"
      "SCOTCH").2.1 ⟨by decide, by decide, by decide⟩,
   (petsc_optional_dep_emission exTripleEnv exSwroot "FFTW" "--with-fftw" "FFTW" "3.5"
      "SCOTCH").2.2.2 (by decide)⟩

end EB
